import Mathlib

/-!
Shallow embedding of `src/app.py` (coordinate-transformation engine for
Ghana CRS conversions) and proofs about its behaviour.

Modelling conventions:
* Python numbers are modelled as `ℚ`.  Values that can come out of the
  external `pyproj` transformer may be non-finite, so the output type of
  the transformer is `FVal` (finite rational, NaN, +Inf or -Inf).
* The `pyproj` transformer itself and the builtin `float(str)` parser are
  external libraries, not code of this repository; they enter the
  embedding as function parameters (`kernel`, `parse`).  A kernel result
  `Except.error e` models a raised exception, `Except.ok` a returned pair.
* The Python `math` module functions used by `calculate_convergence` and
  `calculate_scale_factor` are likewise external transcendental
  primitives; they are gathered in a `MathPrims` parameter.
* Python truthiness (`or` chains, `if not all([...])`) is modelled
  explicitly: `None` and `0` are falsy for numbers, `None` and `""` for
  strings.
* `round(v, n)` on floats rounds half-to-even; `pyRoundInt` reproduces
  that tie rule over `ℚ`.
-/

/-- A value produced by the external transformer: a finite rational or one
of the IEEE non-finite values the projection math can return. -/
inductive FVal where
  | fin : ℚ → FVal
  | nan : FVal
  | inf : FVal
  | neginf : FVal
deriving DecidableEq

/-- Python `a or b` for optional numbers: `a` unless `a` is `None` or `0`. -/
def pyOrQ (a b : Option ℚ) : Option ℚ :=
  match a with
  | some q => if q = 0 then b else some q
  | none => b

/-- Python `a or b` for optional strings: `a` unless `a` is `None` or `""`. -/
def pyOrS (a b : Option String) : Option String :=
  match a with
  | some s => if s = "" then b else some s
  | none => b

/-- Round a rational to the nearest integer, ties to even (the rule used by
the builtin `round` of Python). -/
def pyRoundInt (q : ℚ) : ℤ :=
  if q - ⌊q⌋ = 1/2 then (if ⌊q⌋ % 2 = 0 then ⌊q⌋ else ⌊q⌋ + 1) else round q

/-- Python `round(q, 6)`. -/
def pyRound6 (q : ℚ) : ℚ := (pyRoundInt (q * 1000000) : ℚ) / 1000000

/-- Python `round(q, 8)`. -/
def pyRound8 (q : ℚ) : ℚ := (pyRoundInt (q * 100000000) : ℚ) / 100000000

/-- Python `round(v, 6)` on a possibly non-finite value: `round` returns
NaN/Inf unchanged. -/
def pyRound6F : FVal → FVal
  | .fin q => .fin (pyRound6 q)
  | .nan => .nan
  | .inf => .inf
  | .neginf => .neginf

/-- `CRS_DEFINITIONS` from `src/app.py`: codes understood by the engine and
their proj/EPSG definition strings. -/
def CRS_DEFINITIONS : List (String × String) :=
  [("WGS84", "EPSG:4326"),
   ("UTM_30N", "EPSG:32630"),
   ("UTM_31N", "EPSG:32631"),
   ("GHANA_GRID", "+proj=tmerc +lat_0=4.666666666666667 +lon_0=-1 +k=0.99975 +x_0=274319.51 +y_0=0 +ellps=clrk80 +towgs84=-199,32,322,0,0,0,0 +units=m +no_defs"),
   ("WEB_MERCATOR", "EPSG:3857")]

/-- One record of the accuracy advisor table. -/
structure AccuracyInfo where
  accuracy : String
  description : String
  use_case : String
deriving DecidableEq

/-- `TRANSFORMATION_ACCURACY` from `src/app.py`. -/
def TRANSFORMATION_ACCURACY : List (String × AccuracyInfo) :=
  [("WGS84_to_UTM",
    { accuracy := "< 1 meter",
      description := "High accuracy transformation using standard UTM projection parameters",
      use_case := "Engineering surveys, cadastral mapping, GIS applications" }),
   ("WGS84_to_GHANA_GRID",
    { accuracy := "1-5 meters",
      description := "Uses Helmert transformation with 7 parameters. Accuracy depends on the datum shift parameters",
      use_case := "Land surveying in Ghana, integration with national mapping systems" }),
   ("UTM_to_GHANA_GRID",
    { accuracy := "1-5 meters",
      description := "Involves datum transformation via WGS84. Compound transformation may introduce small errors",
      use_case := "Converting international survey data to Ghana national system" }),
   ("GHANA_GRID_to_WGS84",
    { accuracy := "1-5 meters",
      description := "Reverse Helmert transformation. Accuracy similar to forward transformation",
      use_case := "Publishing Ghana survey data in international standard format" })]

/-- The generic fallback accuracy record built inline in
`transform_coordinates` when the lookup key is absent. -/
def genericAccuracy : AccuracyInfo :=
  { accuracy := "1-5 meters",
    description := "Standard transformation accuracy for properly defined CRS",
    use_case := "General GIS and surveying applications" }

/-- `get_utm_zone` from `src/app.py`. -/
def get_utm_zone (longitude : ℚ) : String :=
  if -6 ≤ longitude ∧ longitude < 0 then "UTM_30N"
  else if 0 ≤ longitude ∧ longitude ≤ 6 then "UTM_31N"
  else "UTM_30N"

/-- The transcendental primitives of the Python `math` module used by the
kernel functions; external library code, passed in as a parameter. -/
structure MathPrims where
  radians : ℚ → ℚ
  degrees : ℚ → ℚ
  sin : ℚ → ℚ
  cos : ℚ → ℚ
  tan : ℚ → ℚ
  atan : ℚ → ℚ
  sqrt : ℚ → ℚ

/-- A concrete `MathPrims` instance (identities) used only to instantiate
theorems at concrete inputs; the theorems hold for every instance. -/
def prims0 : MathPrims :=
  { radians := fun q => q, degrees := fun q => q, sin := fun q => q,
    cos := fun q => q, tan := fun q => q, atan := fun q => q,
    sqrt := fun q => q }

/-- `calculate_convergence` from `src/app.py`. -/
def calculate_convergence (m : MathPrims) (lat lon central_meridian : ℚ) : ℚ :=
  let lat_rad := m.radians lat
  let delta_lon := lon - central_meridian
  let convergence := m.atan (m.tan (m.radians delta_lon) * m.sin lat_rad)
  m.degrees convergence

/-- `calculate_scale_factor` from `src/app.py`; the Python default
`k0 = 0.9996` is passed explicitly at the call sites.  The intermediate
`N` is computed but unused, exactly as in the source. -/
def calculate_scale_factor (m : MathPrims) (lat lon central_meridian k0 : ℚ) : ℚ :=
  let lat_rad := m.radians lat
  let delta_lon_rad := m.radians (lon - central_meridian)
  let a : ℚ := 6378137.0
  let e2 : ℚ := 0.00669438
  let _N := a / m.sqrt (1 - e2 * (m.sin lat_rad)^2)
  let T := (m.tan lat_rad)^2
  let C := e2 * (m.cos lat_rad)^2 / (1 - e2)
  let A := delta_lon_rad * m.cos lat_rad
  k0 * (1 + (1 + C) * A^2 / 2 + (5 - 4*T + 42*C + 13*C^2 - 28*e2) * A^4 / 24)

/-- The `coordinates` object of a transform request: a JSON object whose
recognised numeric keys are `lon`, `lat`, `x`, `y` (each possibly absent). -/
structure Coords where
  lon : Option ℚ
  lat : Option ℚ
  x : Option ℚ
  y : Option ℚ
deriving DecidableEq

/-- A transform request body.  `none` for `source_crs`/`target_crs` models
an absent or null JSON field; `none` for `coordinates` models an absent,
null or empty (falsy) coordinates object. -/
structure TransformRequest where
  source_crs : Option String
  target_crs : Option String
  coordinates : Option Coords
deriving DecidableEq

/-- The `source` block of a transformation result. -/
structure SourceBlock where
  crs : String
  x : ℚ
  y : ℚ
deriving DecidableEq

/-- The `target` block of a transformation result; the transformed values
come from the external kernel and may be non-finite. -/
structure TargetBlock where
  crs : String
  x : FVal
  y : FVal
deriving DecidableEq

/-- The optional UTM `metadata` block of a transformation result. -/
structure MetaBlock where
  zone : String
  convergence : ℚ
  scale_factor : ℚ
deriving DecidableEq

/-- A successful transformation result, as assembled by
`transform_coordinates`. -/
structure TransformResult where
  source : SourceBlock
  target : TargetBlock
  metadata : Option MetaBlock
  accuracy : AccuracyInfo
deriving DecidableEq

/-- The response of the transform endpoint: a result, or an error message
with an HTTP status code. -/
inductive TransformResponse where
  | ok : TransformResult → TransformResponse
  | err : String → Nat → TransformResponse
deriving DecidableEq

/-- Coordinate extraction of `transform_coordinates`: `lon`/`lat` for a
geographic (`WGS84`) source, `x`/`y` otherwise. -/
def extractXY (source_crs : String) (c : Coords) : Option ℚ × Option ℚ :=
  if source_crs = "WGS84" then (c.lon, c.lat) else (c.x, c.y)

/-- Python `s.startswith(pre)`, via the structural list-prefix test on the
character lists (equivalent to `String.startsWith`). -/
def strStartsWith (s pre : String) : Bool :=
  pre.data.isPrefixOf s.data

/-- The result-assembly block of `transform_coordinates` (lines 179-213 of
`src/app.py`): build the source/target blocks, attach UTM metadata when the
target is a UTM zone and the source is `WGS84`, then attach accuracy
information from the advisor table or the generic fallback. -/
def assembleResult (m : MathPrims) (source_crs target_crs : String)
    (x y : ℚ) (tx ty : FVal) : TransformResult :=
  let base : TransformResult :=
    { source := { crs := source_crs, x := x, y := y },
      target := { crs := target_crs, x := pyRound6F tx, y := pyRound6F ty },
      metadata := none,
      accuracy := genericAccuracy }
  let withMeta : TransformResult :=
    if target_crs = "UTM_30N" ∨ target_crs = "UTM_31N" then
      let central_meridian : ℚ := if target_crs = "UTM_30N" then -3 else 3
      if source_crs = "WGS84" then
        { base with metadata := some (MetaBlock.mk target_crs
            (pyRound6 (calculate_convergence m y x central_meridian))
            (pyRound8 (calculate_scale_factor m y x central_meridian 0.9996))) }
      else base
    else base
  let transform_key := source_crs ++ "_to_" ++ target_crs
  match TRANSFORMATION_ACCURACY.lookup transform_key with
  | some acc => { withMeta with accuracy := acc }
  | none => { withMeta with accuracy := genericAccuracy }

/-- `transform_coordinates` from `src/app.py` (the `/api/transform`
handler), with the external `pyproj` transformer abstracted as `kernel`
(applied to the two resolved CRS definition strings and the input pair;
`Except.error` models a raised exception, which the `except` clause of
the handler turns into a 500 response). -/
def transform_coordinates (m : MathPrims)
    (kernel : String → String → ℚ → ℚ → Except String (FVal × FVal))
    (req : TransformRequest) : TransformResponse :=
  match req.source_crs, req.target_crs, req.coordinates with
  | some source_crs, some target_crs, some coordinates =>
    if source_crs = "" ∨ target_crs = "" then
      .err "Missing required parameters" 400
    else
      match CRS_DEFINITIONS.lookup source_crs, CRS_DEFINITIONS.lookup target_crs with
      | some source_def, some target_def0 =>
        -- the auto UTM zone selection branch of lines 157-162; for
        -- `UTM_AUTO` itself the registry lookup above has already failed,
        -- so the rebinding is only reachable with `target_crs` unchanged
        let step : Option (String × Option String) :=
          if source_crs = "WGS84" ∧ strStartsWith target_crs "UTM" ∧ target_crs = "UTM_AUTO" then
            match pyOrQ coordinates.lon coordinates.x with
            | some lon => some (get_utm_zone lon, CRS_DEFINITIONS.lookup (get_utm_zone lon))
            | none => none
          else some (target_crs, some target_def0)
        match step with
        | none => .err "TypeError" 500
        | some (target_crs, targetDefOpt) =>
          match targetDefOpt with
          | none => .err "pyproj error" 500
          | some target_def =>
            match extractXY source_crs coordinates with
            | (some x, some y) =>
              match kernel source_def target_def x y with
              | .error e => .err e 500
              | .ok (tx, ty) => .ok (assembleResult m source_crs target_crs x y tx ty)
            | _ => .err "Invalid coordinate values" 400
      | _, _ => .err "Invalid CRS specified" 400
  | _, _, _ => .err "Missing required parameters" 400

/-- The transformed-x value of a response, when it is a success. -/
def targetXOf : TransformResponse → Option FVal
  | .ok r => some r.target.x
  | .err _ _ => none

/-- The transformed-y value of a response, when it is a success. -/
def targetYOf : TransformResponse → Option FVal
  | .ok r => some r.target.y
  | .err _ _ => none

/-- The target block of a response, when it is a success. -/
def targetOf : TransformResponse → Option TargetBlock
  | .ok r => some r.target
  | .err _ _ => none

/-- The metadata block of a response, when it is a success. -/
def metadataOf : TransformResponse → Option MetaBlock
  | .ok r => r.metadata
  | .err _ _ => none

/-- The accuracy block of a response, when it is a success. -/
def accuracyOf : TransformResponse → Option AccuracyInfo
  | .ok r => some r.accuracy
  | .err _ _ => none

/-- Whether a response is a success. -/
def isOkResp : TransformResponse → Bool
  | .ok _ => true
  | .err _ _ => false

/-- A CSV row as produced by `csv.DictReader`: field names mapped to string
cell values. -/
def Row : Type := List (String × String)

instance : DecidableEq Row := by
  unfold Row
  exact inferInstance

/-- A four-way Python `or` chain over optional strings, as used for the
geographic column synonyms. -/
def resolveChain (a b c d : Option String) : Option String :=
  pyOrS a (pyOrS b (pyOrS c d))

/-- A three-way Python `or` chain over optional strings, as used for the
projected column synonyms. -/
def resolveChain3 (a b c : Option String) : Option String :=
  pyOrS a (pyOrS b c)

/-- Column resolution of `transform_batch`: the `or` chains over the
synonym lists, `lon`/`longitude`/`x`/`X` and `lat`/`latitude`/`y`/`Y` for a
geographic source, `x`/`X`/`easting` and `y`/`Y`/`northing` otherwise. -/
def rowXY (source_crs : String) (row : Row) : Option String × Option String :=
  if source_crs = "WGS84" then
    (resolveChain (row.lookup "lon") (row.lookup "longitude") (row.lookup "x") (row.lookup "X"),
     resolveChain (row.lookup "lat") (row.lookup "latitude") (row.lookup "y") (row.lookup "Y"))
  else
    (resolveChain3 (row.lookup "x") (row.lookup "X") (row.lookup "easting"),
     resolveChain3 (row.lookup "y") (row.lookup "Y") (row.lookup "northing"))

/-- Python `float(v)` applied to the result of an `or` chain: raises
(returns `none`) on `None`, otherwise parses through the external builtin
string parser `parse`. -/
def floatOfChain (parse : String → Option ℚ) : Option String → Option ℚ
  | none => none
  | some s => parse s

/-- One entry of the batch error list: the 1-based row index and the
exception message. -/
structure ErrEntry where
  row : Nat
  error : String
deriving DecidableEq

/-- One entry of the batch success list: the fields of the original row plus the
appended `transformed_x`, `transformed_y`, `target_crs` values. -/
structure SuccessRow where
  fields : Row
  transformed_x : FVal
  transformed_y : FVal
  target_crs : String
deriving DecidableEq

/-- The JSON body of a successful batch response. -/
structure BatchResult where
  success : Bool
  total_processed : Nat
  errors : List ErrEntry
  data : List SuccessRow
deriving DecidableEq

/-- The response of the batch endpoint. -/
inductive BatchResponse where
  | ok : BatchResult → BatchResponse
  | err : String → Nat → BatchResponse
deriving DecidableEq

/-- The body of the per-row `try` block of `transform_batch`: resolve the
two columns, convert with `float`, transform through the kernel, round and
append.  Any failure (unresolvable or unparsable column, kernel exception)
is the caught exception, recorded with the 1-based index of the row; the
message text of the Python `TypeError`/`ValueError` is abstracted to a fixed string,
since only the index is ever inspected. -/
def processRow (parse : String → Option ℚ)
    (kernel : String → String → ℚ → ℚ → Except String (FVal × FVal))
    (source_def target_def source_crs target_crs : String)
    (idx : Nat) (row : Row) : Except ErrEntry SuccessRow :=
  match floatOfChain parse (rowXY source_crs row).1 with
  | none => .error { row := idx, error := "could not convert value to float" }
  | some x =>
    match floatOfChain parse (rowXY source_crs row).2 with
    | none => .error { row := idx, error := "could not convert value to float" }
    | some y =>
      match kernel source_def target_def x y with
      | .error e => .error { row := idx, error := e }
      | .ok (tx, ty) =>
        .ok { fields := row, transformed_x := pyRound6F tx,
              transformed_y := pyRound6F ty, target_crs := target_crs }

/-- The `for idx, row in enumerate(csv_input, start=1)` loop of
`transform_batch`: successes and errors are appended to their lists in row
order. -/
def batchLoop (pr : Nat → Row → Except ErrEntry SuccessRow) :
    Nat → List Row → List SuccessRow × List ErrEntry
  | _, [] => ([], [])
  | i, r :: rs =>
    let rest := batchLoop pr (i + 1) rs
    match pr i r with
    | .ok s => (s :: rest.1, rest.2)
    | .error e => (rest.1, e :: rest.2)

/-- `transform_batch` from `src/app.py` (the `/api/transform-batch`
handler), with the external `pyproj` transformer abstracted as `kernel`
and the builtin `float(str)` parser as `parse`.  `""` for a CRS code
models an absent or empty form field; `rows` is the parsed CSV content
(file handling is transport-layer). -/
def transform_batch (parse : String → Option ℚ)
    (kernel : String → String → ℚ → ℚ → Except String (FVal × FVal))
    (source_crs target_crs : String) (rows : List Row) : BatchResponse :=
  if source_crs = "" ∨ target_crs = "" then
    .err "Missing CRS parameters" 400
  else
    match CRS_DEFINITIONS.lookup source_crs, CRS_DEFINITIONS.lookup target_crs with
    | some source_def, some target_def =>
      let out := batchLoop (processRow parse kernel source_def target_def source_crs target_crs) 1 rows
      .ok { success := true, total_processed := out.1.length, errors := out.2, data := out.1 }
    | _, _ => .err "Invalid CRS specified" 400

/-- The success list of a batch response, when it is a success. -/
def batchData : BatchResponse → List SuccessRow
  | .ok r => r.data
  | .err _ _ => []

/-- The error list of a batch response, when it is a success. -/
def batchErrors : BatchResponse → List ErrEntry
  | .ok r => r.errors
  | .err _ _ => []

/-- Whether a batch response is a success. -/
def isOkBatch : BatchResponse → Bool
  | .ok _ => true
  | .err _ _ => false

/-- The validation report returned by the validate endpoint. -/
structure ValidationReport where
  valid : Bool
  warnings : List String
  errors : List String
deriving DecidableEq

/-- `validate_coordinates` from `src/app.py` (the `/api/validate` handler)
for numeric input; each mutation of the report dict becomes a rebinding. -/
def validate_coordinates (crs : String) (x y : ℚ) : ValidationReport :=
  let v : ValidationReport := { valid := true, warnings := [], errors := [] }
  if crs = "WGS84" then
    let v := if ¬(-180 ≤ x ∧ x ≤ 180) then
        { v with valid := false, errors := v.errors ++ ["Longitude must be between -180 and 180 degrees"] }
      else v
    let v := if ¬(-90 ≤ y ∧ y ≤ 90) then
        { v with valid := false, errors := v.errors ++ ["Latitude must be between -90 and 90 degrees"] }
      else v
    let v := if ¬(-4 ≤ x ∧ x ≤ 2) then
        { v with warnings := v.warnings ++ ["Longitude outside Ghana bounds (approximately -4 to 2 degrees)"] }
      else v
    let v := if ¬(4 ≤ y ∧ y ≤ 12) then
        { v with warnings := v.warnings ++ ["Latitude outside Ghana bounds (approximately 4 to 12 degrees)"] }
      else v
    v
  else if crs = "UTM_30N" ∨ crs = "UTM_31N" then
    let v := if ¬(160000 ≤ x ∧ x ≤ 840000) then
        { v with warnings := v.warnings ++ ["Easting outside typical UTM zone range"] }
      else v
    let v := if ¬(0 ≤ y ∧ y ≤ 10000000) then
        { v with warnings := v.warnings ++ ["Northing outside typical Northern hemisphere range"] }
      else v
    v
  else if crs = "GHANA_GRID" then
    let v := if ¬(0 ≤ x ∧ x ≤ 500000) then
        { v with warnings := v.warnings ++ ["Easting outside typical Ghana Grid range"] }
      else v
    let v := if ¬(0 ≤ y ∧ y ≤ 1000000) then
        { v with warnings := v.warnings ++ ["Northing outside typical Ghana Grid range"] }
      else v
    v
  else v

/-! ### Helper lemmas -/

theorem lookup_mem_keys {β : Type} {s : String} {d : β} :
    ∀ {l : List (String × β)}, List.lookup s l = some d → s ∈ l.map Prod.fst := by
  intro l
  induction l with
  | nil => intro h; cases h
  | cons p t ih =>
    intro h
    rw [show p = (p.1, p.2) from rfl, List.lookup_cons] at h
    rcases hb : (s == p.1) with _ | _
    · rw [hb] at h
      exact List.mem_cons_of_mem _ (ih h)
    · exact List.mem_cons.mpr (Or.inl (eq_of_beq hb))

theorem crs_lookup_keys {s d : String} (h : List.lookup s CRS_DEFINITIONS = some d) :
    s = "WGS84" ∨ s = "UTM_30N" ∨ s = "UTM_31N" ∨ s = "GHANA_GRID" ∨ s = "WEB_MERCATOR" := by
  have := lookup_mem_keys h
  simpa [CRS_DEFINITIONS] using this

theorem crs_lookup_ne_empty {s d : String} (h : List.lookup s CRS_DEFINITIONS = some d) :
    s ≠ "" := by
  rcases crs_lookup_keys h with h' | h' | h' | h' | h' <;> (subst h'; decide)

theorem crs_lookup_ne_auto {s d : String} (h : List.lookup s CRS_DEFINITIONS = some d) :
    s ≠ "UTM_AUTO" := by
  rcases crs_lookup_keys h with h' | h' | h' | h' | h' <;> (subst h'; decide)

theorem assembleResult_target (m : MathPrims) (src tgt : String) (x y : ℚ) (tx ty : FVal) :
    (assembleResult m src tgt x y tx ty).target =
      { crs := tgt, x := pyRound6F tx, y := pyRound6F ty } := by
  simp only [assembleResult]
  cases h : List.lookup (src ++ "_to_" ++ tgt) TRANSFORMATION_ACCURACY <;> split_ifs <;> rfl

theorem assembleResult_source (m : MathPrims) (src tgt : String) (x y : ℚ) (tx ty : FVal) :
    (assembleResult m src tgt x y tx ty).source = { crs := src, x := x, y := y } := by
  simp only [assembleResult]
  cases h : List.lookup (src ++ "_to_" ++ tgt) TRANSFORMATION_ACCURACY <;> split_ifs <;> rfl

theorem assembleResult_metadata (m : MathPrims) (src tgt : String) (x y : ℚ) (tx ty : FVal) :
    (assembleResult m src tgt x y tx ty).metadata =
      if (tgt = "UTM_30N" ∨ tgt = "UTM_31N") ∧ src = "WGS84" then
        some (MetaBlock.mk tgt
          (pyRound6 (calculate_convergence m y x (if tgt = "UTM_30N" then -3 else 3)))
          (pyRound8 (calculate_scale_factor m y x (if tgt = "UTM_30N" then -3 else 3) 0.9996)))
      else none := by
  simp only [assembleResult]
  cases h : List.lookup (src ++ "_to_" ++ tgt) TRANSFORMATION_ACCURACY <;> split_ifs <;> simp_all

theorem assembleResult_accuracy (m : MathPrims) (src tgt : String) (x y : ℚ) (tx ty : FVal) :
    (assembleResult m src tgt x y tx ty).accuracy =
      (List.lookup (src ++ "_to_" ++ tgt) TRANSFORMATION_ACCURACY).getD genericAccuracy := by
  simp only [assembleResult]
  cases h : List.lookup (src ++ "_to_" ++ tgt) TRANSFORMATION_ACCURACY <;> rfl

/-- Under registered CRS codes, supplied coordinates and a kernel that
returns a pair, `transform_coordinates` reaches the assembly step. -/
theorem transform_coordinates_ok (m : MathPrims)
    (kernel : String → String → ℚ → ℚ → Except String (FVal × FVal))
    (src tgt d1 d2 : String) (c : Coords) (x y : ℚ) (tx ty : FVal)
    (h1 : List.lookup src CRS_DEFINITIONS = some d1)
    (h2 : List.lookup tgt CRS_DEFINITIONS = some d2)
    (hc : extractXY src c = (some x, some y))
    (hk : kernel d1 d2 x y = .ok (tx, ty)) :
    transform_coordinates m kernel ⟨some src, some tgt, some c⟩ =
      .ok (assembleResult m src tgt x y tx ty) := by
  have hs := crs_lookup_ne_empty h1
  have ht := crs_lookup_ne_empty h2
  have hta := crs_lookup_ne_auto h2
  simp [transform_coordinates, h1, h2, hc, hk, hs, ht, hta]

/-- The identity kernel: what `pyproj` computes when source and target CRS
definitions coincide; used to instantiate theorems at concrete inputs. -/
def idKernel : String → String → ℚ → ℚ → Except String (FVal × FVal) :=
  fun _ _ x y => .ok (.fin x, .fin y)

/-! ### Claim theorems -/

/-- C1: a request with source `WGS84` and target `UTM_AUTO` carrying a
numeric longitude does NOT reach the auto zone-selection branch: the
registry lookup at lines 151-155 of `src/app.py` runs first, `UTM_AUTO` is
not a registered code, and the request is rejected with the CRS-not-found
error, for every kernel, math primitives and coordinates.  This contradicts
the claim (and spec §4.2/§4.3 and the dead auto-selection branch the code
itself contains at lines 157-162), so the claim marks a code bug. -/
theorem utm_auto_request_rejected (m : MathPrims)
    (kernel : String → String → ℚ → ℚ → Except String (FVal × FVal)) (lon lat : ℚ) :
    transform_coordinates m kernel
      ⟨some "WGS84", some "UTM_AUTO", some ⟨some lon, some lat, none, none⟩⟩ =
      .err "Invalid CRS specified" 400 := rfl

/-- C2 (counterexample): with a kernel that produces NaN for both axes, the
transform endpoint returns a successful Transformation Result whose target
x is NaN — no KERNEL_FAILURE error is raised. -/
theorem nonfinite_result_returned_at_nan_kernel :
    targetXOf (transform_coordinates prims0 (fun _ _ _ _ => Except.ok (FVal.nan, FVal.nan))
      ⟨some "WGS84", some "UTM_30N", some ⟨some 10, some 10, none, none⟩⟩) =
      some FVal.nan := rfl

/-- C2 (amended): `transform_coordinates` performs no finiteness check:
whatever pair the kernel returns — finite or not — is rounded and placed in
a successful Transformation Result.  The `KERNEL_FAILURE` detection the
claim describes does not exist in the code. -/
theorem no_finiteness_check_on_kernel_result (m : MathPrims)
    (kernel : String → String → ℚ → ℚ → Except String (FVal × FVal))
    (src tgt d1 d2 : String) (c : Coords) (x y : ℚ) (tx ty : FVal)
    (h1 : List.lookup src CRS_DEFINITIONS = some d1)
    (h2 : List.lookup tgt CRS_DEFINITIONS = some d2)
    (hc : extractXY src c = (some x, some y))
    (hk : kernel d1 d2 x y = .ok (tx, ty)) :
    isOkResp (transform_coordinates m kernel ⟨some src, some tgt, some c⟩) = true ∧
    targetXOf (transform_coordinates m kernel ⟨some src, some tgt, some c⟩) =
      some (pyRound6F tx) ∧
    targetYOf (transform_coordinates m kernel ⟨some src, some tgt, some c⟩) =
      some (pyRound6F ty) := by
  rw [transform_coordinates_ok m kernel src tgt d1 d2 c x y tx ty h1 h2 hc hk]
  refine ⟨rfl, ?_, ?_⟩ <;>
    simp [targetXOf, targetYOf, assembleResult_target]

/-- C2 witness: the amended theorem instantiated at `WGS84 → GHANA_GRID`
with a kernel returning `(+Inf, 2)`. -/
theorem no_finiteness_check_witness :
    isOkResp (transform_coordinates prims0 (fun _ _ _ _ => Except.ok (FVal.inf, FVal.fin 2))
      ⟨some "WGS84", some "GHANA_GRID", some ⟨some (-1), some 5, none, none⟩⟩) = true ∧
    targetXOf (transform_coordinates prims0 (fun _ _ _ _ => Except.ok (FVal.inf, FVal.fin 2))
      ⟨some "WGS84", some "GHANA_GRID", some ⟨some (-1), some 5, none, none⟩⟩) =
      some (pyRound6F FVal.inf) ∧
    targetYOf (transform_coordinates prims0 (fun _ _ _ _ => Except.ok (FVal.inf, FVal.fin 2))
      ⟨some "WGS84", some "GHANA_GRID", some ⟨some (-1), some 5, none, none⟩⟩) =
      some (pyRound6F (FVal.fin 2)) :=
  no_finiteness_check_on_kernel_result prims0 _ "WGS84" "GHANA_GRID" _ _
    ⟨some (-1), some 5, none, none⟩ (-1) 5 FVal.inf (FVal.fin 2) rfl rfl rfl rfl

/-- C5 (counterexample): with the identity kernel (what pyproj computes for
a same-CRS transformer), `transform(UTM_30N → UTM_30N)` on easting
0.1234567 returns 0.123457: the chain — including its rounding to six
decimals — is not skipped, so the result differs from the input pair. -/
theorem identity_transform_rounds_counterexample :
    targetOf (transform_coordinates prims0 idKernel
      ⟨some "UTM_30N", some "UTM_30N", some ⟨none, none, some (1234567/10000000), some 0⟩⟩) =
      some ⟨"UTM_30N", FVal.fin (123457/1000000), FVal.fin 0⟩ ∧
    (123457/1000000 : ℚ) ≠ 1234567/10000000 := by
  constructor
  · rw [transform_coordinates_ok prims0 idKernel "UTM_30N" "UTM_30N" _ _
      ⟨none, none, some (1234567/10000000), some 0⟩ (1234567/10000000) 0
      (.fin (1234567/10000000)) (.fin 0) rfl rfl rfl rfl]
    norm_num [targetOf, assembleResult_target, pyRound6F, pyRound6, pyRoundInt, round_eq]
  · norm_num

/-- C5 (amended): the degenerate `source == target` case runs the normal
chain; with the identity kernel the target pair is the input pair rounded
to 6 decimals, so the transform is the identity exactly on pairs already
representable with 6 decimals. -/
theorem identity_transform_up_to_rounding (m : MathPrims)
    (kernel : String → String → ℚ → ℚ → Except String (FVal × FVal))
    (X d : String) (c : Coords) (x y : ℚ)
    (h1 : List.lookup X CRS_DEFINITIONS = some d)
    (hc : extractXY X c = (some x, some y))
    (hk : kernel d d x y = .ok (.fin x, .fin y)) :
    targetOf (transform_coordinates m kernel ⟨some X, some X, some c⟩) =
      some ⟨X, FVal.fin (pyRound6 x), FVal.fin (pyRound6 y)⟩ ∧
    (pyRound6 x = x → pyRound6 y = y →
      targetOf (transform_coordinates m kernel ⟨some X, some X, some c⟩) =
        some ⟨X, FVal.fin x, FVal.fin y⟩) := by
  rw [transform_coordinates_ok m kernel X X d d c x y (.fin x) (.fin y) h1 h1 hc hk]
  constructor
  · simp [targetOf, assembleResult_target, pyRound6F]
  · intro hx hy
    simp [targetOf, assembleResult_target, pyRound6F, hx, hy]

/-- C5 witness: `GHANA_GRID → GHANA_GRID` on the 6-decimal pair (100, 200)
is the identity. -/
theorem identity_transform_witness :
    targetOf (transform_coordinates prims0 idKernel
      ⟨some "GHANA_GRID", some "GHANA_GRID", some ⟨none, none, some 100, some 200⟩⟩) =
      some ⟨"GHANA_GRID", FVal.fin 100, FVal.fin 200⟩ :=
  (identity_transform_up_to_rounding prims0 idKernel "GHANA_GRID" _
    ⟨none, none, some 100, some 200⟩ 100 200 rfl rfl rfl).2
    (by norm_num [pyRound6, pyRoundInt, round_eq])
    (by norm_num [pyRound6, pyRoundInt, round_eq])

/-- C8: a successful transform carries a metadata block exactly when the
target is `UTM_30N` or `UTM_31N` and the source is `WGS84`, and then its
convergence and scale factor are computed from the original pre-transform
latitude `y` and longitude `x` and the central meridian of the target zone
(−3 for `UTM_30N`, 3 for `UTM_31N`), rounded to 6 and 8 decimals. -/
theorem metadata_iff_utm_target_wgs84_source (m : MathPrims)
    (kernel : String → String → ℚ → ℚ → Except String (FVal × FVal))
    (src tgt d1 d2 : String) (c : Coords) (x y : ℚ) (tx ty : FVal)
    (h1 : List.lookup src CRS_DEFINITIONS = some d1)
    (h2 : List.lookup tgt CRS_DEFINITIONS = some d2)
    (hc : extractXY src c = (some x, some y))
    (hk : kernel d1 d2 x y = .ok (tx, ty)) :
    metadataOf (transform_coordinates m kernel ⟨some src, some tgt, some c⟩) =
      (if (tgt = "UTM_30N" ∨ tgt = "UTM_31N") ∧ src = "WGS84" then
        some (MetaBlock.mk tgt
          (pyRound6 (calculate_convergence m y x (if tgt = "UTM_30N" then -3 else 3)))
          (pyRound8 (calculate_scale_factor m y x (if tgt = "UTM_30N" then -3 else 3) 0.9996)))
      else none) := by
  rw [transform_coordinates_ok m kernel src tgt d1 d2 c x y tx ty h1 h2 hc hk]
  simp [metadataOf, assembleResult_metadata]

/-- C8 witness: `WGS84 → UTM_31N` at (lon, lat) = (1, 5) carries a metadata
block computed from the original latitude 5, longitude 1 and the central
meridian 3. -/
theorem metadata_witness :
    metadataOf (transform_coordinates prims0 idKernel
      ⟨some "WGS84", some "UTM_31N", some ⟨some 1, some 5, none, none⟩⟩) =
      some (MetaBlock.mk "UTM_31N"
        (pyRound6 (calculate_convergence prims0 5 1 3))
        (pyRound8 (calculate_scale_factor prims0 5 1 3 0.9996))) := by
  rw [metadata_iff_utm_target_wgs84_source prims0 idKernel "WGS84" "UTM_31N" _ _
    ⟨some 1, some 5, none, none⟩ 1 5 (FVal.fin 1) (FVal.fin 5) rfl rfl rfl rfl]
  rfl

/-- C9: the accuracy block of every successful transform is the advisor
record under the key `"{source}_to_{target}"` when present, and the generic
"1-5 meters" descriptor otherwise; in particular `UTM_30N → WEB_MERCATOR`
(an undocumented pair) succeeds and carries the generic descriptor. -/
theorem accuracy_lookup_with_generic_fallback (m : MathPrims)
    (kernel : String → String → ℚ → ℚ → Except String (FVal × FVal))
    (src tgt d1 d2 : String) (c : Coords) (x y : ℚ) (tx ty : FVal)
    (h1 : List.lookup src CRS_DEFINITIONS = some d1)
    (h2 : List.lookup tgt CRS_DEFINITIONS = some d2)
    (hc : extractXY src c = (some x, some y))
    (hk : kernel d1 d2 x y = .ok (tx, ty)) :
    accuracyOf (transform_coordinates m kernel ⟨some src, some tgt, some c⟩) =
      some ((List.lookup (src ++ "_to_" ++ tgt) TRANSFORMATION_ACCURACY).getD genericAccuracy) ∧
    isOkResp (transform_coordinates prims0 idKernel
      ⟨some "UTM_30N", some "WEB_MERCATOR", some ⟨none, none, some 500000, some 600000⟩⟩) = true ∧
    accuracyOf (transform_coordinates prims0 idKernel
      ⟨some "UTM_30N", some "WEB_MERCATOR", some ⟨none, none, some 500000, some 600000⟩⟩) =
      some genericAccuracy := by
  refine ⟨?_, rfl, rfl⟩
  rw [transform_coordinates_ok m kernel src tgt d1 d2 c x y tx ty h1 h2 hc hk]
  simp [accuracyOf, assembleResult_accuracy]

/-- C9 witness: `GHANA_GRID → WGS84` (a documented pair) carries the
advisor record stored under `"GHANA_GRID_to_WGS84"`. -/
theorem accuracy_lookup_witness :
    accuracyOf (transform_coordinates prims0 idKernel
      ⟨some "GHANA_GRID", some "WGS84", some ⟨none, none, some 1, some 2⟩⟩) =
      some ((List.lookup ("GHANA_GRID" ++ "_to_" ++ "WGS84") TRANSFORMATION_ACCURACY).getD genericAccuracy) :=
  (accuracy_lookup_with_generic_fallback prims0 idKernel "GHANA_GRID" "WGS84" _ _
    ⟨none, none, some 1, some 2⟩ 1 2 (FVal.fin 1) (FVal.fin 2) rfl rfl rfl rfl).1

/-- C6: for every CRS code and numeric pair, the validation report is valid
exactly when its hard-error list is empty; and every code other than
`WGS84` — the projected systems and unknown codes alike — never produces a
hard error, so its report is always valid. -/
theorem validation_valid_iff_no_errors (crs : String) (x y : ℚ) :
    ((validate_coordinates crs x y).valid = true ↔
      (validate_coordinates crs x y).errors = []) ∧
    (crs ≠ "WGS84" → (validate_coordinates crs x y).errors = []) := by
  unfold validate_coordinates
  split_ifs <;> simp_all

/-- C6 witness: the theorem at `UTM_30N` with the far-out-of-range pair
(0, 99999999): no hard errors, so the report is valid. -/
theorem validation_valid_iff_no_errors_witness :
    ((validate_coordinates "UTM_30N" 0 99999999).valid = true ↔
      (validate_coordinates "UTM_30N" 0 99999999).errors = []) ∧
    (validate_coordinates "UTM_30N" 0 99999999).errors = [] :=
  ⟨(validation_valid_iff_no_errors "UTM_30N" 0 99999999).1,
   (validation_valid_iff_no_errors "UTM_30N" 0 99999999).2 (by decide)⟩

/-- C7: for `WGS84`, the hard longitude/latitude errors appear exactly when
x ∉ [−180, 180] / y ∉ [−90, 90], and the Ghana-bounds soft warnings exactly
when x ∉ [−4, 2] / y ∉ [4, 12]; in particular (181, 0) is invalid with the
longitude error and (180, 0) is valid with a longitude Ghana-bounds
warning. -/
theorem wgs84_validation_bounds (x y : ℚ) :
    (("Longitude must be between -180 and 180 degrees" ∈
        (validate_coordinates "WGS84" x y).errors) ↔ ¬(-180 ≤ x ∧ x ≤ 180)) ∧
    (("Latitude must be between -90 and 90 degrees" ∈
        (validate_coordinates "WGS84" x y).errors) ↔ ¬(-90 ≤ y ∧ y ≤ 90)) ∧
    (("Longitude outside Ghana bounds (approximately -4 to 2 degrees)" ∈
        (validate_coordinates "WGS84" x y).warnings) ↔ ¬(-4 ≤ x ∧ x ≤ 2)) ∧
    (("Latitude outside Ghana bounds (approximately 4 to 12 degrees)" ∈
        (validate_coordinates "WGS84" x y).warnings) ↔ ¬(4 ≤ y ∧ y ≤ 12)) ∧
    validate_coordinates "WGS84" 181 0 =
      { valid := false,
        warnings := ["Longitude outside Ghana bounds (approximately -4 to 2 degrees)",
                     "Latitude outside Ghana bounds (approximately 4 to 12 degrees)"],
        errors := ["Longitude must be between -180 and 180 degrees"] } ∧
    validate_coordinates "WGS84" 180 0 =
      { valid := true,
        warnings := ["Longitude outside Ghana bounds (approximately -4 to 2 degrees)",
                     "Latitude outside Ghana bounds (approximately 4 to 12 degrees)"],
        errors := [] } := by
  refine ⟨?_, ?_, ?_, ?_, by decide, by decide⟩ <;>
    (unfold validate_coordinates; split_ifs <;> simp_all)

/-! ### Batch loop lemmas -/

theorem batchLoop_length (pr : Nat → Row → Except ErrEntry SuccessRow) :
    ∀ (rows : List Row) (i : Nat),
      (batchLoop pr i rows).1.length + (batchLoop pr i rows).2.length = rows.length := by
  intro rows
  induction rows with
  | nil => intro i; rfl
  | cons r rs ih =>
    intro i
    simp only [batchLoop]
    cases h : pr i r <;> simp [h, ← ih (i + 1)] <;> omega

theorem batchLoop_error_mem (pr : Nat → Row → Except ErrEntry SuccessRow) :
    ∀ (rows : List Row) (i : Nat) (e : ErrEntry), e ∈ (batchLoop pr i rows).2 →
      ∃ j, j < rows.length ∧ ∃ r, rows.get? j = some r ∧ pr (i + j) r = .error e := by
  intro rows
  induction rows with
  | nil => intro i e he; cases he
  | cons r rs ih =>
    intro i e he
    simp only [batchLoop] at he
    cases h : pr i r with
    | ok s =>
      rw [h] at he
      obtain ⟨j, hj, r', hr', hpr⟩ := ih (i + 1) e he
      exact ⟨j + 1, by simpa using hj, r', by simpa using hr', by simpa [Nat.add_assoc, Nat.add_comm 1 j] using hpr⟩
    | error e' =>
      rw [h] at he
      rcases List.mem_cons.mp he with he' | he'
      · exact ⟨0, by simp, r, by simp, by simpa [he'] using h⟩
      · obtain ⟨j, hj, r', hr', hpr⟩ := ih (i + 1) e he'
        exact ⟨j + 1, by simpa using hj, r', by simpa using hr', by simpa [Nat.add_assoc, Nat.add_comm 1 j] using hpr⟩

theorem batchLoop_mem_of_get (pr : Nat → Row → Except ErrEntry SuccessRow) :
    ∀ (rows : List Row) (i j : Nat) (r : Row), rows.get? j = some r →
      (∀ s, pr (i + j) r = .ok s → s ∈ (batchLoop pr i rows).1) ∧
      (∀ e, pr (i + j) r = .error e → e ∈ (batchLoop pr i rows).2) := by
  intro rows
  induction rows with
  | nil => intro i j r hr; cases hr
  | cons r0 rs ih =>
    intro i j r hr
    cases j with
    | zero =>
      have hr0 : r = r0 := by simpa using hr.symm
      subst hr0
      constructor
      · intro s hs
        simp only [batchLoop]
        rw [show i + 0 = i from rfl] at hs
        rw [hs]
        exact List.mem_cons_self _ _
      · intro e hethis
        simp only [batchLoop]
        rw [show i + 0 = i from rfl] at hethis
        rw [hethis]
        exact List.mem_cons_self _ _
    | succ j' =>
      have hr' : rs.get? j' = some r := by simpa using hr
      have h := ih (i + 1) j' r hr'
      have harith : i + (j' + 1) = (i + 1) + j' := by omega
      constructor
      · intro s hs
        rw [harith] at hs
        have := h.1 s hs
        simp only [batchLoop]
        cases hp : pr i r0 <;> simp [this]
      · intro e heq
        rw [harith] at heq
        have := h.2 e heq
        simp only [batchLoop]
        cases hp : pr i r0 <;> simp [this]

theorem batchLoop_data_eq (pr : Nat → Row → Except ErrEntry SuccessRow) :
    ∀ (rows : List Row) (i : Nat),
      (batchLoop pr i rows).1 =
        (List.enumFrom i rows).filterMap (fun p => (pr p.1 p.2).toOption) := by
  intro rows
  induction rows with
  | nil => intro i; rfl
  | cons r rs ih =>
    intro i
    simp only [batchLoop, List.enumFrom, List.filterMap_cons]
    cases h : pr i r <;> simp [h, Except.toOption, ih (i + 1)]

theorem processRow_error_row (parse : String → Option ℚ)
    (kernel : String → String → ℚ → ℚ → Except String (FVal × FVal))
    (d1 d2 sc tc : String) (idx : Nat) (row : Row) (e : ErrEntry)
    (h : processRow parse kernel d1 d2 sc tc idx row = .error e) : e.row = idx := by
  unfold processRow at h
  repeat' split at h
  all_goals simp_all
  all_goals (cases h; rfl)

/-- Under registered CRS codes, `transform_batch` returns the accumulated
loop output as a successful batch result. -/
theorem transform_batch_ok (parse : String → Option ℚ)
    (kernel : String → String → ℚ → ℚ → Except String (FVal × FVal))
    (src tgt d1 d2 : String) (rows : List Row)
    (h1 : List.lookup src CRS_DEFINITIONS = some d1)
    (h2 : List.lookup tgt CRS_DEFINITIONS = some d2) :
    transform_batch parse kernel src tgt rows =
      .ok { success := true,
            total_processed := (batchLoop (processRow parse kernel d1 d2 src tgt) 1 rows).1.length,
            errors := (batchLoop (processRow parse kernel d1 d2 src tgt) 1 rows).2,
            data := (batchLoop (processRow parse kernel d1 d2 src tgt) 1 rows).1 } := by
  have hs := crs_lookup_ne_empty h1
  have ht := crs_lookup_ne_empty h2
  simp [transform_batch, h1, h2, hs, ht]

/-- C3 (counterexample): a batch call with registered codes and zero rows
returns a successful BatchResult with zero successes and zero errors — no
`NO_ROWS` error exists in the code. -/
theorem empty_batch_returns_success :
    transform_batch (fun _ => none) idKernel "WGS84" "UTM_30N" [] =
      .ok { success := true, total_processed := 0, errors := [], data := [] } := rfl

/-- C3 (amended): for every registered source and target code and every
parser and kernel, the batch endpoint maps an empty row source to the
successful result with `total_processed = 0` and empty lists. -/
theorem empty_batch_ok (parse : String → Option ℚ)
    (kernel : String → String → ℚ → ℚ → Except String (FVal × FVal))
    (src tgt d1 d2 : String)
    (h1 : List.lookup src CRS_DEFINITIONS = some d1)
    (h2 : List.lookup tgt CRS_DEFINITIONS = some d2) :
    transform_batch parse kernel src tgt [] =
      .ok { success := true, total_processed := 0, errors := [], data := [] } := by
  rw [transform_batch_ok parse kernel src tgt d1 d2 [] h1 h2]
  rfl

/-- C3 witness: the amended theorem at `WGS84 → GHANA_GRID`. -/
theorem empty_batch_ok_witness :
    transform_batch (fun _ => none) idKernel "WGS84" "GHANA_GRID" [] =
      .ok { success := true, total_processed := 0, errors := [], data := [] } :=
  empty_batch_ok (fun _ => none) idKernel "WGS84" "GHANA_GRID" _ _ rfl rfl

/-- C4: for every batch call with registered codes, rows consumed equal
successes plus recorded errors; every recorded error carries the 1-based
index of the row that produced it; the individual outcome of every row reaches
the output — a failing row never prevents later rows from being processed —
and the success list is the order-preserving filter of the per-row
successes. -/
theorem batch_row_accounting (parse : String → Option ℚ)
    (kernel : String → String → ℚ → ℚ → Except String (FVal × FVal))
    (src tgt d1 d2 : String) (rows : List Row)
    (h1 : List.lookup src CRS_DEFINITIONS = some d1)
    (h2 : List.lookup tgt CRS_DEFINITIONS = some d2) :
    (batchData (transform_batch parse kernel src tgt rows)).length +
      (batchErrors (transform_batch parse kernel src tgt rows)).length = rows.length ∧
    (∀ e ∈ batchErrors (transform_batch parse kernel src tgt rows),
      1 ≤ e.row ∧ e.row ≤ rows.length ∧
      ∃ r, rows.get? (e.row - 1) = some r ∧
        processRow parse kernel d1 d2 src tgt e.row r = .error e) ∧
    (∀ j r, rows.get? j = some r →
      (∀ s, processRow parse kernel d1 d2 src tgt (j + 1) r = .ok s →
        s ∈ batchData (transform_batch parse kernel src tgt rows)) ∧
      (∀ e, processRow parse kernel d1 d2 src tgt (j + 1) r = .error e →
        e ∈ batchErrors (transform_batch parse kernel src tgt rows))) ∧
    batchData (transform_batch parse kernel src tgt rows) =
      (List.enumFrom 1 rows).filterMap
        (fun p => (processRow parse kernel d1 d2 src tgt p.1 p.2).toOption) := by
  rw [transform_batch_ok parse kernel src tgt d1 d2 rows h1 h2]
  simp only [batchData, batchErrors]
  refine ⟨batchLoop_length _ rows 1, ?_, ?_, batchLoop_data_eq _ rows 1⟩
  · intro e he
    obtain ⟨j, hj, r, hr, hpr⟩ := batchLoop_error_mem _ rows 1 e he
    have hrow : e.row = 1 + j := processRow_error_row parse kernel d1 d2 src tgt (1 + j) r e hpr
    have hj' : e.row - 1 = j := by omega
    refine ⟨by omega, by omega, r, ?_, ?_⟩
    · rw [hj']; exact hr
    · rw [hrow]; exact hpr
  · intro j r hr
    have h := batchLoop_mem_of_get (processRow parse kernel d1 d2 src tgt) rows 1 j r hr
    rw [Nat.add_comm 1 j] at h
    exact h

/-- A tiny parser accepting only the literal "5", used to instantiate the
batch theorems at concrete inputs. -/
def parse5 : String → Option ℚ := fun s => if s = "5" then some 5 else none

/-- A concrete two-row batch: the longitude cell of the second row does not
parse. -/
def rowsW : List Row := [[("lon", "5"), ("lat", "5")], [("lon", "oops"), ("lat", "5")]]

/-- C4 witness: on the two-row batch with one failing row, successes plus
errors account for both rows. -/
theorem batch_row_accounting_witness :
    (batchData (transform_batch parse5 idKernel "WGS84" "UTM_31N" rowsW)).length +
      (batchErrors (transform_batch parse5 idKernel "WGS84" "UTM_31N" rowsW)).length = 2 := by
  have h := (batch_row_accounting parse5 idKernel "WGS84" "UTM_31N" _ _ rowsW rfl rfl).1
  simpa [rowsW] using h

/-- C10: a present-but-empty cell behaves exactly like an absent one in the
column-synonym `or` chain (an empty `lon` defers to `longitude`, and so
on); and a row in which every synonym of the first axis is absent or empty
is recorded in the error list with its 1-based index, not emitted as a
success. -/
theorem empty_cell_synonym_fallthrough :
    (∀ b c d : Option String, resolveChain (some "") b c d = resolveChain none b c d) ∧
    (∀ (parse : String → Option ℚ)
       (kernel : String → String → ℚ → ℚ → Except String (FVal × FVal)) (r : Row),
      parse "" = none →
      (List.lookup "lon" r = none ∨ List.lookup "lon" r = some "") →
      (List.lookup "longitude" r = none ∨ List.lookup "longitude" r = some "") →
      (List.lookup "x" r = none ∨ List.lookup "x" r = some "") →
      (List.lookup "X" r = none ∨ List.lookup "X" r = some "") →
      (batchErrors (transform_batch parse kernel "WGS84" "UTM_30N" [r])).map ErrEntry.row = [1] ∧
      batchData (transform_batch parse kernel "WGS84" "UTM_30N" [r]) = []) := by
  constructor
  · intro b c d
    simp [resolveChain, pyOrS]
  · intro parse kernel r hp h1 h2 h3 h4
    have hres : resolveChain (List.lookup "lon" r) (List.lookup "longitude" r)
        (List.lookup "x" r) (List.lookup "X" r) = none ∨
        resolveChain (List.lookup "lon" r) (List.lookup "longitude" r)
        (List.lookup "x" r) (List.lookup "X" r) = some "" := by
      rcases h1 with h1 | h1 <;> rcases h2 with h2 | h2 <;> rcases h3 with h3 | h3 <;>
        rcases h4 with h4 | h4 <;> simp [resolveChain, pyOrS, h1, h2, h3, h4]
    have hx : floatOfChain parse (rowXY "WGS84" r).1 = none := by
      rcases hres with h | h <;> simp [rowXY, floatOfChain, h, hp]
    have hrow : processRow parse kernel "EPSG:4326" "EPSG:32630" "WGS84" "UTM_30N" 1 r =
        .error { row := 1, error := "could not convert value to float" } := by
      simp [processRow, hx]
    rw [transform_batch_ok parse kernel "WGS84" "UTM_30N" "EPSG:4326" "EPSG:32630" [r] rfl rfl]
    simp [batchData, batchErrors, batchLoop, hrow]

/-- C10 witness: a row whose `lon` cell is empty and which has no other
longitude synonym lands in the error list with row index 1. -/
theorem empty_cell_synonym_witness :
    (batchErrors (transform_batch (fun _ => none) idKernel "WGS84" "UTM_30N"
      [[("lon", ""), ("name", "Accra")]])).map ErrEntry.row = [1] ∧
    batchData (transform_batch (fun _ => none) idKernel "WGS84" "UTM_30N"
      [[("lon", ""), ("name", "Accra")]]) = [] :=
  empty_cell_synonym_fallthrough.2 (fun _ => none) idKernel [("lon", ""), ("name", "Accra")]
    rfl (Or.inr rfl) (Or.inl rfl) (Or.inl rfl) (Or.inl rfl)
